import Mathlib

/-!
Verification of the pine-python chat engine core (`pine_ai/chat.py` and
`pine_ai/transport/socketio.py`) against its natural-language specification.

The Python code is shallowly embedded: the `_listen` handler closure becomes a
pure step function `handlerStep` on an explicit `ListenState`; the event-loop
timers (`loop.call_later`) become an explicit registry of `Timer` records with
rational-number fire times (seconds); the asyncio queue becomes a list of
`Option ChatEvent` entries (`none` is the termination sentinel the handler
enqueues).
-/

namespace PineSpec

/- Event-name constants. Modelled from the spec: `pine_ai/models/events.py`
is not part of the sources at hand (only its importers are); the string values
follow the naming pinned by `chat.py`'s docstring ("session:text_part",
"session:work_log_part") and the unit test asserting
`S2CEvent.SESSION_TEXT == "session:text"`. Only their pairwise distinctness
matters to the handler logic. -/
namespace S2C

def SESSION_TEXT_PART : String := "session:text_part"
def SESSION_TEXT : String := "session:text"
def SESSION_WORK_LOG_PART : String := "session:work_log_part"
def SESSION_INPUT_STATE : String := "session:input_state"
def SESSION_STATE : String := "session:state"
def SESSION_FORM_TO_USER : String := "session:form_to_user"
def SESSION_ASK_FOR_LOCATION : String := "session:ask_for_location"
def SESSION_TASK_READY : String := "session:task_ready"
def SESSION_TASK_FINISHED : String := "session:task_finished"
def SESSION_INTERACTIVE_AUTH_CONFIRMATION : String := "session:interactive_auth_confirmation"
def SESSION_THREE_WAY_CALL : String := "session:three_way_call"
def SESSION_REWARD : String := "session:reward"

end S2C

/-- `chat.py` line 17: `TERMINAL_STATES = {"task_finished", "task_cancelled", "task_stale"}`. -/
def TERMINAL_STATES : List String := ["task_finished", "task_cancelled", "task_stale"]

/-- `chat.py` lines 24-29: the substantive response events tracked for
`waiting_input` termination gating. -/
def SUBSTANTIVE_EVENTS : List String :=
  [S2C.SESSION_TEXT, S2C.SESSION_FORM_TO_USER,
   S2C.SESSION_ASK_FOR_LOCATION, S2C.SESSION_TASK_READY,
   S2C.SESSION_TASK_FINISHED, S2C.SESSION_INTERACTIVE_AUTH_CONFIRMATION,
   S2C.SESSION_THREE_WAY_CALL, S2C.SESSION_REWARD]

/-- The fields of a payload `data` dict that the handler reads
(`content`, `final`, `step_id`, `text_delta`, `status`); a field absent from
the Python dict is `none`. -/
structure DataDict where
  content : Option String := none
  final : Option Bool := none
  step_id : Option String := none
  text_delta : Option String := none
  status : Option String := none
deriving Repr, DecidableEq

/-- The handler's view of `payload.get("data")`: Python `None`, a dict, or a
non-dict value (the `isinstance(data, dict)` checks fail on the latter two). -/
inductive PyData where
  | pnone
  | dict (d : DataDict)
  | other (tag : String)
deriving Repr, DecidableEq

/-- The fields of an inbound raw envelope that `_listen`'s handler reads:
`payload.session_id`, `payload.message_id`, `payload.data`, `metadata`
(metadata kept opaque as an optional string). -/
structure RawEnvelope where
  payloadSessionId : Option String
  messageId : Option String
  data : PyData
  metadata : Option String
deriving Repr, DecidableEq

/-- The data carried by an emitted `ChatEvent`: a `{"content": s}` dict
(Tier-1 flush and synthesized session-state events), a
`{"step_id", "text", "status"}` dict (work-log flush), or the pass-through of
the raw payload data. -/
inductive EvtData where
  | contentD (content : String)
  | wlD (step_id : String) (text : String) (status : Option String)
  | raw (d : PyData)
deriving Repr, DecidableEq

/-- `chat.py` lines 32-41: the finished event unit delivered to callers. -/
structure ChatEvent where
  type : String
  session_id : String
  message_id : Option String := none
  data : EvtData
  metadata : Option String := none
deriving Repr, DecidableEq

/-- A timer registered with the event loop by `loop.call_later(3.0, flush_wl,
step_id)`: its handle id, absolute fire time (seconds), the step id its
callback flushes, and whether `.cancel()` has been called on the handle. -/
structure Timer where
  tid : Nat
  fireAt : ℚ
  stepId : String
  cancelled : Bool
deriving Repr, DecidableEq

/-- A work-log accumulator entry: Python dict `{"text": ..., "status": ...}`
where the `status` key may be absent. -/
structure WLBuf where
  text : String
  status : Option String
deriving Repr, DecidableEq

/-- Python dict assignment `m[k] = v`: replace the binding of `k`, or append a
fresh one. -/
def updateA {α : Type} (k : String) (v : α) : List (String × α) → List (String × α)
  | [] => [(k, v)]
  | (k', v') :: rest => if k' == k then (k, v) :: rest else (k', v') :: updateA k v rest

/-- Python dict `m.pop(k, None)`'s effect on the mapping: drop the binding of
`k` if present. -/
def eraseA {α : Type} (k : String) : List (String × α) → List (String × α)
  | [] => []
  | (k', v') :: rest => if k' == k then rest else (k', v') :: eraseA k rest

/-- Python `"".join(parts)`. -/
def strJoin : List String → String
  | [] => ""
  | s :: rest => s ++ strJoin rest

/-- The mutable state of one `ChatEngine._listen` turn: the `TextPartBuffer`'s
`_parts`, the work-log buffers and timer handles, the timer registry of the
event loop, the next fresh timer handle id, the asyncio queue contents
(`none` = sentinel), and the `done` / `received_agent_response` flags. -/
structure ListenState where
  textParts : List (String × List String)
  wlBuffers : List (String × WLBuf)
  wlTimers : List (String × Nat)
  timers : List Timer
  nextTid : Nat
  queue : List (Option ChatEvent)
  done : Bool
  receivedAgentResponse : Bool
deriving Repr, DecidableEq

/-- The state at the top of `_listen`'s handler registration: all accumulators
empty, no timers, empty queue, `done = False`, `received_agent_response = False`. -/
def initState : ListenState :=
  { textParts := [], wlBuffers := [], wlTimers := [], timers := [],
    nextTid := 0, queue := [], done := false, receivedAgentResponse := false }

/-- `TextPartBuffer.collect` (`chat.py` lines 53-61): ensure an entry for the
message id, append non-empty content, and on `final` pop the entry and return
the concatenation. Returns the optional merged string and the new `_parts`. -/
def collect (parts : List (String × List String)) (message_id content : String)
    (final : Bool) : Option String × List (String × List String) :=
  let parts1 := match parts.lookup message_id with
    | some _ => parts
    | none => updateA message_id [] parts
  let parts2 := if content == "" then parts1
    else updateA message_id (((parts1.lookup message_id).getD []) ++ [content]) parts1
  if final then
    (some (strJoin ((parts2.lookup message_id).getD [])), eraseA message_id parts2)
  else
    (none, parts2)

/-- `message_id or "unknown"` (`chat.py` line 182): Python truthiness maps a
missing or empty message id to the shared key `"unknown"`. -/
def midKey : Option String → String
  | none => "unknown"
  | some m => if m == "" then "unknown" else m

/-- `chat.py` lines 169-171: `if p_session_id and p_session_id != session_id:
return` — the event is ignored when the payload carries a non-empty session id
different from the turn's. -/
def sessionFiltered (session_id : String) : Option String → Bool
  | some p => !(p == "") && !(p == session_id)
  | none => false

/-- Tier 1 (`chat.py` lines 178-188): run `collect` on the keyed text-part
buffer; if a merged string comes back, enqueue one finished `session:text`
event carrying it. -/
def tier1Step (session_id : String) (mid : Option String) (meta : Option String)
    (d : DataDict) (st : ListenState) : ListenState :=
  let content := d.content.getD ""
  let final := d.final.getD false
  let res := collect st.textParts (midKey mid) content final
  let st1 := { st with textParts := res.2 }
  match res.1 with
  | some m =>
      { st1 with queue := st1.queue ++
          [some { type := S2C.SESSION_TEXT, session_id := session_id, message_id := mid,
                  data := EvtData.contentD m, metadata := meta }] }
  | none => st1

/-- `if data.get("status"):` — a truthy (present, non-empty) fragment status
overwrites the stored one. -/
def wlStatusUpdate (old new : Option String) : Option String :=
  match new with
  | some s => if s == "" then old else some s
  | none => old

/-- `t.cancel()` on the timer handle `tid`: mark it cancelled in the registry. -/
def cancelTimer (timers : List Timer) (tid : Nat) : List Timer :=
  timers.map fun t => if t.tid == tid then { t with cancelled := true } else t

/-- Tier 3 (`chat.py` lines 191-204): append the delta text to the step's
accumulator, overwrite a truthy status, cancel the previously scheduled flush
timer for the step (if any), and schedule a fresh flush 3 seconds from `now`. -/
def tier3Step (now : ℚ) (d : DataDict) (st : ListenState) : ListenState :=
  let step := d.step_id.getD "unknown"
  let old := (st.wlBuffers.lookup step).getD { text := "", status := none }
  let newBuf : WLBuf :=
    { text := old.text ++ d.text_delta.getD "", status := wlStatusUpdate old.status d.status }
  let st1 := { st with wlBuffers := updateA step newBuf st.wlBuffers }
  let pruned := match st1.wlTimers.lookup step with
    | some tid => (cancelTimer st1.timers tid, eraseA step st1.wlTimers)
    | none => (st1.timers, st1.wlTimers)
  { st1 with
      timers := pruned.1 ++ [{ tid := st1.nextTid, fireAt := now + 3, stepId := step, cancelled := false }],
      wlTimers := updateA step st1.nextTid pruned.2,
      nextTid := st1.nextTid + 1 }

/-- Tier 2 pass-through (`chat.py` lines 206-222): enqueue the event unchanged,
arm the substantive-response flag when its type is substantive, then run the
`waiting_input` and terminal-session-state termination checks (each enqueues
the `None` sentinel and sets `done`). -/
def passStep (session_id : String) (event : String) (mid : Option String)
    (meta : Option String) (data : PyData) (st : ListenState) : ListenState :=
  let st1 := { st with queue := st.queue ++
      [some { type := event, session_id := session_id, message_id := mid,
              data := EvtData.raw data, metadata := meta }] }
  let st2 := if SUBSTANTIVE_EVENTS.contains event
    then { st1 with receivedAgentResponse := true } else st1
  let st3 := if event == S2C.SESSION_INPUT_STATE then
      (match data with
       | PyData.dict d =>
           if d.content == some "waiting_input" && st2.receivedAgentResponse
           then { st2 with done := true, queue := st2.queue ++ [none] } else st2
       | _ => st2)
    else st2
  if event == S2C.SESSION_STATE then
      (match data with
       | PyData.dict d =>
           if TERMINAL_STATES.contains (d.content.getD "")
           then { st3 with done := true, queue := st3.queue ++ [none] } else st3
       | _ => st3)
    else st3

/-- One call of `_listen`'s `handler(event, raw)` (`chat.py` lines 166-222),
at wall-clock time `now` (seconds). -/
def handlerStep (session_id : String) (now : ℚ) (event : String) (raw : RawEnvelope)
    (st : ListenState) : ListenState :=
  if sessionFiltered session_id raw.payloadSessionId then st
  else if event == S2C.SESSION_TEXT_PART then
    match raw.data with
    | PyData.dict d => tier1Step session_id raw.messageId raw.metadata d st
    | _ => st
  else if event == S2C.SESSION_WORK_LOG_PART then
    match raw.data with
    | PyData.dict d => tier3Step now d st
    | _ => st
  else passStep session_id event raw.messageId raw.metadata raw.data st

/-- Deliver a timestamped list of inbound `(time, eventName, envelope)` wire
events to the handler in order. -/
def runHandler (session_id : String) (evts : List (ℚ × String × RawEnvelope))
    (st : ListenState) : ListenState :=
  evts.foldl (fun s e => handlerStep session_id e.1 e.2.1 e.2.2 s) st

/-- `flush_wl` (`chat.py` lines 156-164): pop the step's buffer and timer-handle
entry; if a buffer was present, enqueue one finished work-log event carrying
the accumulated text and last-known status. -/
def flush_wl (session_id : String) (step : String) (st : ListenState) : ListenState :=
  let buf := st.wlBuffers.lookup step
  let st1 := { st with wlBuffers := eraseA step st.wlBuffers,
                       wlTimers := eraseA step st.wlTimers }
  match buf with
  | some b =>
      { st1 with queue := st1.queue ++
          [some { type := S2C.SESSION_WORK_LOG_PART, session_id := session_id,
                  message_id := none, data := EvtData.wlD step b.text b.status,
                  metadata := none }] }
  | none => st1

/-- The event loop firing timer handle `tid`: a cancelled handle's callback
never runs; an uncancelled one runs `flush_wl` for its step id. -/
def fireFlush (session_id : String) (tid : Nat) (st : ListenState) : ListenState :=
  match st.timers.find? (fun t => t.tid == tid) with
  | some t => if t.cancelled then st else flush_wl session_id t.stepId st
  | none => st

/-- A Tier-1 text-fragment wire envelope for the turn's session: payload
`{session_id, message_id, data: {content, final}}`. -/
def textFragEnv (sid : String) (mid : Option String) (c : String) (f : Bool) : RawEnvelope :=
  { payloadSessionId := some sid, messageId := mid,
    data := PyData.dict { content := some c, final := some f }, metadata := none }

/-- The outcome of the authoritative `check_session_state` call made by
`_listen` when the idle timeout fires (`chat.py` lines 230-240): the engine
has no checker configured, the call raised, or it returned a session whose
`state` field is `s`. -/
inductive CheckResult where
  | noChecker
  | raised
  | state (s : String)
deriving Repr, DecidableEq

/-- The `except asyncio.TimeoutError` arm of `_listen`'s loop (`chat.py`
lines 230-240): on a terminal authoritative state, yield one synthesized
session-state event and leave the loop; on a raised check or a non-terminal
state, yield nothing and keep waiting. Returns (yielded events, whether the
loop is left, the state afterwards). -/
def idleTimeoutStep (session_id : String) (res : CheckResult) (st : ListenState) :
    List ChatEvent × Bool × ListenState :=
  match res with
  | CheckResult.state s =>
      if TERMINAL_STATES.contains s then
        ([{ type := S2C.SESSION_STATE, session_id := session_id, message_id := none,
            data := EvtData.contentD s, metadata := none }], true, st)
      else ([], false, st)
  | _ => ([], false, st)

/-- `_listen`'s post-loop drain (`chat.py` lines 244-247): pop everything left
on the queue, yielding the non-sentinel entries in order. -/
def drainLoop : List (Option ChatEvent) → List ChatEvent
  | [] => []
  | some e :: rest => e :: drainLoop rest
  | none :: rest => drainLoop rest

/-- `for t in wl_timers.values(): t.cancel()` — mark every listed timer handle
cancelled in the registry. -/
def cancelAll (timers : List Timer) (tids : List Nat) : List Timer :=
  timers.map fun t => if tids.contains t.tid then { t with cancelled := true } else t

/-- The turn's `finally` cleanup (`chat.py` lines 248-251): cancel every timer
handle currently held in `wl_timers`, then run the `remove()` closure returned
by `add_event_handler` (`socketio.py` lines 45-53), which erases the first
occurrence of the handler from the manager's handler list and swallows the
`ValueError` when it is absent. Handlers are identified by `Nat` ids. -/
def closeTurn (st : ListenState) (handlers : List Nat) (h : Nat) :
    ListenState × List Nat :=
  ({ st with timers := cancelAll st.timers (st.wlTimers.map Prod.snd) },
   handlers.erase h)

/-- The fields of an inbound raw envelope read by `emit_and_wait`'s
`response_handler` (`socketio.py` lines 162-174): `payload.session_id`,
`payload.data`, `metadata.request_id`, and `metadata.source.role` (a missing
`source` dict yields a missing role). -/
structure InEnvelope where
  payloadSessionId : Option String
  payloadData : PyData
  metaRequestId : Option String
  sourceRole : Option String
deriving Repr, DecidableEq

/-- `response_handler`'s match predicate (`socketio.py` lines 162-174): the
inbound event name must equal the awaited event type, and then either the
envelope's `metadata.request_id` equals the pending request id, or the request
was made with a truthy (non-empty) session id that the inbound payload echoes
while the envelope's source role is not `"user"`. -/
def response_matches (event_type request_id : String) (session_id : Option String)
    (evt : String) (raw : InEnvelope) : Bool :=
  if evt == event_type then
    (raw.metaRequestId == some request_id)
    || (match session_id with
        | none => false
        | some s => !(s == "") && (raw.payloadSessionId == some s)
            && !(raw.sourceRole == some "user"))
  else false

/-- Modelled from the spec's words, for comparison with `response_matches`
(claim C5): a pending request resolves exactly when an inbound envelope of the
same event type arrives that either carries a correlation/request id equal to
the pending one, or carries a payload session id equal to the request's
session id while its source role is not `"user"`. -/
def specResolveCond (event_type request_id : String) (session_id : Option String)
    (evt : String) (raw : InEnvelope) : Prop :=
  evt = event_type ∧
    (raw.metaRequestId = some request_id ∨
      (∃ s, session_id = some s ∧ raw.payloadSessionId = some s
        ∧ raw.sourceRole ≠ some "user"))

/-- The observable outcome of one `emit_and_wait` call: the returned payload
data or the raised timeout message, the time (seconds after the emit) at which
the call finishes, and whether the `finally` block deregistered the response
handler. -/
structure EmitWaitOutcome where
  result : Except String PyData
  finishTime : ℚ
  handlerRemoved : Bool
deriving Repr

/-- One `emit_and_wait` call (`socketio.py` lines 139-186) against a
timestamped trace of inbound `(time, eventName, envelope)` wire events: the
wait resolves at the first inbound envelope delivered strictly before the
timeout that satisfies `response_matches` (returning that envelope's payload
data), and otherwise raises `"Timeout waiting for {event_type} response"` when
the timeout elapses — never earlier. The `finally` block always runs
`remove_handler()`. -/
def emit_and_wait_run (event_type request_id : String) (session_id : Option String)
    (timeout : ℚ) (inbound : List (ℚ × String × InEnvelope)) : EmitWaitOutcome :=
  match inbound.find? (fun x =>
      decide (x.1 < timeout)
      && response_matches event_type request_id session_id x.2.1 x.2.2) with
  | some x => { result := Except.ok x.2.2.payloadData, finishTime := x.1, handlerRemoved := true }
  | none => { result := Except.error ("Timeout waiting for " ++ event_type ++ " response"),
              finishTime := timeout, handlerRemoved := true }

@[simp]
lemma runHandler_nil (sid : String) (st : ListenState) : runHandler sid [] st = st := rfl

@[simp]
lemma runHandler_cons (sid : String) (e : ℚ × String × RawEnvelope)
    (evts : List (ℚ × String × RawEnvelope)) (st : ListenState) :
    runHandler sid (e :: evts) st = runHandler sid evts (handlerStep sid e.1 e.2.1 e.2.2 st) := rfl

lemma runHandler_append (sid : String) (l₁ l₂ : List (ℚ × String × RawEnvelope))
    (st : ListenState) :
    runHandler sid (l₁ ++ l₂) st = runHandler sid l₂ (runHandler sid l₁ st) := by
  induction l₁ generalizing st with
  | nil => rfl
  | cons e rest ih => simp [ih]

lemma strJoin_append (a b : List String) : strJoin (a ++ b) = strJoin a ++ strJoin b := by
  induction a with
  | nil => simp [strJoin]
  | cons s rest ih => simp [strJoin, ih, String.append_assoc]

lemma strJoin_filter (l : List String) :
    strJoin (l.filter fun c => !(c == "")) = strJoin l := by
  induction l with
  | nil => rfl
  | cons c rest ih =>
    cases hc : (c == "") with
    | true =>
      have : c = "" := by simpa using hc
      simp [List.filter, hc, strJoin, ih, this]
    | false => simp [List.filter, hc, strJoin, ih]

lemma strJoin_snoc_filter (a : List String) (c : String) :
    strJoin (a ++ (if (c == "") = true then [] else [c])) = strJoin a ++ c := by
  cases hc : (c == "") with
  | true =>
    have : c = "" := by simpa using hc
    simp [hc, strJoin, this]
  | false => simp [hc, strJoin_append, strJoin]

@[simp]
lemma lookup_single_self {α : Type} (k : String) (v : α) :
    List.lookup k [(k, v)] = some v := by
  simp [List.lookup]

@[simp]
lemma updateA_single_self {α : Type} (k : String) (v w : α) :
    updateA k v [(k, w)] = [(k, v)] := by
  simp [updateA]

@[simp]
lemma eraseA_single_self {α : Type} (k : String) (v : α) :
    eraseA k [(k, v)] = [] := by
  simp [eraseA]

lemma sessionFiltered_self (sid : String) : sessionFiltered sid (some sid) = false := by
  simp [sessionFiltered]

/-- Processing one non-final text fragment from a state whose text-part buffer
holds exactly the fragment's key: the non-empty content is appended, nothing
else changes, nothing is emitted. -/
lemma handlerStep_textPart_nonfinal (sid : String) (now : ℚ) (mid : Option String)
    (c : String) (st : ListenState) (a : List String)
    (h : st.textParts = [(midKey mid, a)]) :
    handlerStep sid now S2C.SESSION_TEXT_PART (textFragEnv sid mid c false) st
      = { st with textParts := [(midKey mid, a ++ (if (c == "") = true then [] else [c]))] } := by
  cases hc : (c == "") with
  | true =>
    simp [handlerStep, textFragEnv, sessionFiltered_self, tier1Step, collect, h, hc]
  | false =>
    simp [handlerStep, textFragEnv, sessionFiltered_self, tier1Step, collect, h, hc]

/-- Processing the final text fragment from a state whose text-part buffer
holds exactly the fragment's key: one finished `session:text` event carrying
the concatenation is enqueued and the buffer entry is removed. -/
lemma handlerStep_textPart_final (sid : String) (now : ℚ) (mid : Option String)
    (c : String) (st : ListenState) (a : List String)
    (h : st.textParts = [(midKey mid, a)]) :
    handlerStep sid now S2C.SESSION_TEXT_PART (textFragEnv sid mid c true) st
      = { st with textParts := [],
                  queue := st.queue ++
                    [some { type := S2C.SESSION_TEXT, session_id := sid, message_id := mid,
                            data := EvtData.contentD (strJoin a ++ c), metadata := none }] } := by
  cases hc : (c == "") with
  | true =>
    have hc' : c = "" := by simpa using hc
    simp [handlerStep, textFragEnv, sessionFiltered_self, tier1Step, collect, h, hc, hc',
      strJoin]
  | false =>
    simp [handlerStep, textFragEnv, sessionFiltered_self, tier1Step, collect, h, hc,
      strJoin_append, strJoin]

/-- Processing a text fragment from a state with an empty text-part buffer is
the same as processing it after the buffer lazily gained an empty entry for
the fragment's key (mirrors `if message_id not in self._parts`). -/
lemma handlerStep_textPart_empty (sid : String) (now : ℚ) (mid : Option String)
    (c : String) (f : Bool) (st : ListenState) (h : st.textParts = []) :
    handlerStep sid now S2C.SESSION_TEXT_PART (textFragEnv sid mid c f) st
      = handlerStep sid now S2C.SESSION_TEXT_PART (textFragEnv sid mid c f)
          { st with textParts := [(midKey mid, [])] } := by
  simp [handlerStep, textFragEnv, sessionFiltered_self, tier1Step, collect, h, updateA]

/-- Delivering a list of non-final fragments for one key appends their
non-empty contents to that key's buffer and changes nothing else. -/
lemma run_nonfinal (sid : String) (mid : Option String) :
    ∀ (cs : List String) (st : ListenState) (a : List String),
      st.textParts = [(midKey mid, a)] →
      runHandler sid (cs.map fun c => ((0:ℚ), S2C.SESSION_TEXT_PART, textFragEnv sid mid c false)) st
        = { st with textParts := [(midKey mid, a ++ cs.filter (fun c => !(c == "")))] } := by
  intro cs
  induction cs with
  | nil =>
    intro st a h
    simp [← h]
  | cons c rest ih =>
    intro st a h
    rw [List.map_cons, runHandler_cons]
    rw [handlerStep_textPart_nonfinal sid 0 mid c st a h]
    rw [ih _ (a ++ (if (c == "") = true then [] else [c])) rfl]
    cases hc : (c == "") with
    | true => simp [List.filter, hc]
    | false => simp [List.filter, hc]

/-- Claim C1: for a sequence of text fragments for one message id in which only
the last has `final = true`, delivered from a fresh turn state, the non-final
prefix emits nothing, the whole sequence emits exactly one finished
`session:text` event whose content is the concatenation of all fragment
contents in arrival order, and the accumulator entry for the message id is
gone after the flush. -/
theorem c1_text_reassembly (sid : String) (mid : Option String) (cs : List String)
    (clast : String) :
    (runHandler sid (cs.map fun c => ((0:ℚ), S2C.SESSION_TEXT_PART, textFragEnv sid mid c false))
        initState).queue = []
    ∧ runHandler sid
        ((cs.map fun c => ((0:ℚ), S2C.SESSION_TEXT_PART, textFragEnv sid mid c false))
          ++ [((0:ℚ), S2C.SESSION_TEXT_PART, textFragEnv sid mid clast true)])
        initState
      = { initState with queue :=
            [some { type := S2C.SESSION_TEXT, session_id := sid, message_id := mid,
                    data := EvtData.contentD (strJoin (cs ++ [clast])), metadata := none }] }
    ∧ (runHandler sid
        ((cs.map fun c => ((0:ℚ), S2C.SESSION_TEXT_PART, textFragEnv sid mid c false))
          ++ [((0:ℚ), S2C.SESSION_TEXT_PART, textFragEnv sid mid clast true)])
        initState).textParts.lookup (midKey mid) = none := by
  have hjoin : strJoin (cs.filter fun c => !(c == "")) ++ clast = strJoin (cs ++ [clast]) := by
    rw [strJoin_filter, strJoin_append]
    simp [strJoin, String.append_empty]
  have hpre :
      runHandler sid (cs.map fun c => ((0:ℚ), S2C.SESSION_TEXT_PART, textFragEnv sid mid c false))
        initState
      = match cs with
        | [] => initState
        | _ :: _ => { initState with textParts := [(midKey mid, cs.filter (fun c => !(c == "")))] } := by
    cases cs with
    | nil => simp
    | cons c rest =>
      rw [List.map_cons, runHandler_cons]
      rw [handlerStep_textPart_empty sid 0 mid c false initState rfl]
      rw [handlerStep_textPart_nonfinal sid 0 mid c _ [] rfl]
      rw [run_nonfinal sid mid rest _ _ rfl]
      cases hc : (c == "") with
      | true => simp [List.filter, hc]
      | false => simp [List.filter, hc]
  refine ⟨?_, ?_, ?_⟩
  · rw [hpre]; cases cs <;> rfl
  · rw [runHandler_append, hpre]
    cases cs with
    | nil =>
      rw [runHandler_cons, runHandler_nil,
        handlerStep_textPart_empty sid 0 mid clast true initState rfl,
        handlerStep_textPart_final sid 0 mid clast _ [] rfl]
      simp only [List.filter_nil] at hjoin
      rw [hjoin]
      rfl
    | cons c rest =>
      rw [runHandler_cons, runHandler_nil,
        handlerStep_textPart_final sid 0 mid clast _ (((c :: rest).filter (fun c => !(c == "")))) rfl]
      rw [hjoin]
      rfl
  · rw [runHandler_append, hpre]
    cases cs with
    | nil =>
      rw [runHandler_cons, runHandler_nil,
        handlerStep_textPart_empty sid 0 mid clast true initState rfl,
        handlerStep_textPart_final sid 0 mid clast _ [] rfl]
      simp [List.lookup]
    | cons c rest =>
      rw [runHandler_cons, runHandler_nil,
        handlerStep_textPart_final sid 0 mid clast _ (((c :: rest).filter (fun c => !(c == "")))) rfl]
      simp [List.lookup]

@[simp]
lemma state_ne_textPart : (S2C.SESSION_STATE == S2C.SESSION_TEXT_PART) = false := rfl

@[simp]
lemma state_ne_workLogPart : (S2C.SESSION_STATE == S2C.SESSION_WORK_LOG_PART) = false := rfl

@[simp]
lemma state_ne_inputState : (S2C.SESSION_STATE == S2C.SESSION_INPUT_STATE) = false := rfl

@[simp]
lemma state_eq_state : (S2C.SESSION_STATE == S2C.SESSION_STATE) = true := rfl

@[simp]
lemma substantive_not_state : SUBSTANTIVE_EVENTS.contains S2C.SESSION_STATE = false := rfl

/-- Claim C2, evaluated at the failing input: a single text fragment with
`final = true` (which flushes a reassembled `session:text` finished event into
the queue) followed by a `waiting_input` input-state event. The code leaves
`done = false` — the reassembled text never arms `received_agent_response`,
so the turn does NOT terminate, contradicting the claim/spec that a
"waiting for input" observed after a final (reassembled) text event ends the
turn. The queue holds the two finished events and no sentinel. -/
theorem c2_waiting_input_after_reassembled_text :
    (runHandler "s1"
      [((0:ℚ), S2C.SESSION_TEXT_PART, textFragEnv "s1" (some "m1") "Hello" true),
       ((0:ℚ), S2C.SESSION_INPUT_STATE,
        { payloadSessionId := some "s1", messageId := some "m1",
          data := PyData.dict { content := some "waiting_input" }, metadata := none })]
      initState)
    = { initState with
          queue :=
            [some { type := S2C.SESSION_TEXT, session_id := "s1", message_id := some "m1",
                    data := EvtData.contentD "Hello", metadata := none },
             some { type := S2C.SESSION_INPUT_STATE, session_id := "s1",
                    message_id := some "m1",
                    data := EvtData.raw (PyData.dict { content := some "waiting_input" }),
                    metadata := none }],
          done := false, receivedAgentResponse := false } := by
  decide

/-- Claim C3: a session-state event whose `content` is a terminal state
(`task_finished` / `task_cancelled` / `task_stale`), delivered for the turn's
session, sets `done` and enqueues the pass-through event followed by the
sentinel — from EVERY turn state `st`, with no condition on previously
emitted substantive events. -/
theorem c3_terminal_state_terminates (st : ListenState) (sid : String) (now : ℚ)
    (mid meta : Option String) (d : DataDict)
    (hs : d.content.getD "" ∈ TERMINAL_STATES) :
    handlerStep sid now S2C.SESSION_STATE
      { payloadSessionId := some sid, messageId := mid, data := PyData.dict d, metadata := meta }
      st
    = { st with done := true,
                queue := st.queue ++
                  [some { type := S2C.SESSION_STATE, session_id := sid, message_id := mid,
                          data := EvtData.raw (PyData.dict d), metadata := meta },
                   none] } := by
  simp [handlerStep, sessionFiltered_self, passStep, hs,
    (by decide : ¬ (S2C.SESSION_STATE ∈ SUBSTANTIVE_EVENTS))]

/-- Closed witness for `c3_terminal_state_terminates` at a concrete input. -/
theorem c3_terminal_state_terminates_witness :
    ((some "task_cancelled" : Option String).getD "") ∈ TERMINAL_STATES
    ∧ handlerStep "s1" 0 S2C.SESSION_STATE
        { payloadSessionId := some "s1", messageId := none,
          data := PyData.dict { content := some "task_cancelled" }, metadata := none }
        initState
      = { initState with done := true,
                         queue :=
                           [some { type := S2C.SESSION_STATE, session_id := "s1",
                                   message_id := none,
                                   data := EvtData.raw (PyData.dict { content := some "task_cancelled" }),
                                   metadata := none },
                            none] } :=
  ⟨by decide,
   c3_terminal_state_terminates initState "s1" 0 none none
     { content := some "task_cancelled" } (by decide)⟩

/-- Claim C7: when the idle timeout fires, a terminal authoritative state
yields exactly one synthesized session-state finished event carrying that
state and closes the turn; a raised check or a non-terminal state yields
nothing, keeps waiting, and leaves the whole listen state — including the
text-fragment and work-log accumulators — unchanged. -/
theorem c7_idle_timeout_reconciliation (sid : String) (st : ListenState) (s : String) :
    (s ∈ TERMINAL_STATES →
      idleTimeoutStep sid (CheckResult.state s) st
        = ([{ type := S2C.SESSION_STATE, session_id := sid, message_id := none,
              data := EvtData.contentD s, metadata := none }], true, st))
    ∧ (s ∉ TERMINAL_STATES →
      idleTimeoutStep sid (CheckResult.state s) st = ([], false, st))
    ∧ idleTimeoutStep sid CheckResult.raised st = ([], false, st) := by
  refine ⟨fun hs => ?_, fun hs => ?_, rfl⟩
  · simp [idleTimeoutStep, hs]
  · simp [idleTimeoutStep, hs]

/-- Closed witness for `c7_idle_timeout_reconciliation`, applying it at a
terminal state, a non-terminal state, and a raised check. -/
theorem c7_idle_timeout_reconciliation_witness :
    ("task_stale" ∈ TERMINAL_STATES
      ∧ idleTimeoutStep "s1" (CheckResult.state "task_stale") initState
        = ([{ type := S2C.SESSION_STATE, session_id := "s1", message_id := none,
              data := EvtData.contentD "task_stale", metadata := none }], true, initState))
    ∧ ("chat" ∉ TERMINAL_STATES
      ∧ idleTimeoutStep "s1" (CheckResult.state "chat") initState = ([], false, initState))
    ∧ idleTimeoutStep "s1" CheckResult.raised initState = ([], false, initState) :=
  ⟨⟨by decide, (c7_idle_timeout_reconciliation "s1" initState "task_stale").1 (by decide)⟩,
   ⟨by decide, (c7_idle_timeout_reconciliation "s1" initState "chat").2.1 (by decide)⟩,
   (c7_idle_timeout_reconciliation "s1" initState "chat").2.2⟩

/-- Claim C10: an inbound event whose payload carries a non-empty session id
different from the turn's leaves the entire listen state unchanged — nothing
enqueued, accumulators, timers and flags untouched; and an event whose payload
session id is missing or empty is handled exactly as one carrying the turn's
own session id. -/
theorem c10_session_filter (st : ListenState) (sid : String) (now : ℚ) (evt : String)
    (mid meta : Option String) (d : PyData) :
    (∀ s : String, s ≠ "" → s ≠ sid →
      handlerStep sid now evt
        { payloadSessionId := some s, messageId := mid, data := d, metadata := meta } st = st)
    ∧ handlerStep sid now evt
        { payloadSessionId := none, messageId := mid, data := d, metadata := meta } st
      = handlerStep sid now evt
          { payloadSessionId := some sid, messageId := mid, data := d, metadata := meta } st
    ∧ handlerStep sid now evt
        { payloadSessionId := some "", messageId := mid, data := d, metadata := meta } st
      = handlerStep sid now evt
          { payloadSessionId := some sid, messageId := mid, data := d, metadata := meta } st := by
  refine ⟨fun s h1 h2 => ?_, ?_, ?_⟩
  · have hb1 : (s == "") = false := by simpa using h1
    have hb2 : (s == sid) = false := by simpa using h2
    simp [handlerStep, sessionFiltered, hb1, hb2]
  · simp [handlerStep, sessionFiltered, sessionFiltered_self]
  · simp [handlerStep, sessionFiltered, sessionFiltered_self]

/-- Closed witness for `c10_session_filter` at concrete inputs. -/
theorem c10_session_filter_witness :
    ("other" ≠ "" ∧ "other" ≠ "s1"
      ∧ handlerStep "s1" 0 S2C.SESSION_REWARD
          { payloadSessionId := some "other", messageId := none,
            data := PyData.pnone, metadata := none } initState = initState)
    ∧ handlerStep "s1" 0 S2C.SESSION_REWARD
        { payloadSessionId := none, messageId := none,
          data := PyData.pnone, metadata := none } initState
      = handlerStep "s1" 0 S2C.SESSION_REWARD
          { payloadSessionId := some "s1", messageId := none,
            data := PyData.pnone, metadata := none } initState :=
  ⟨⟨by decide, by decide,
    (c10_session_filter initState "s1" 0 S2C.SESSION_REWARD none none PyData.pnone).1
      "other" (by decide) (by decide)⟩,
   (c10_session_filter initState "s1" 0 S2C.SESSION_REWARD none none PyData.pnone).2.1⟩

@[simp]
lemma workLogPart_ne_textPart : S2C.SESSION_WORK_LOG_PART ≠ S2C.SESSION_TEXT_PART := by decide

@[simp]
lemma workLogPart_beq_textPart :
    (S2C.SESSION_WORK_LOG_PART == S2C.SESSION_TEXT_PART) = false := rfl

@[simp]
lemma workLogPart_beq_self :
    (S2C.SESSION_WORK_LOG_PART == S2C.SESSION_WORK_LOG_PART) = true := rfl

@[simp]
lemma lookup_updateA_self {α : Type} (k : String) (v : α) (l : List (String × α)) :
    List.lookup k (updateA k v l) = some v := by
  induction l with
  | nil => simp [updateA, List.lookup]
  | cons p rest ih =>
    cases hk : (p.1 == k) with
    | true =>
      have : k == p.1 := by
        have := eq_of_beq hk; simp [this]
      simp [updateA, hk, List.lookup]
    | false => simp [updateA, hk, List.lookup, BEq.symm_false hk, ih]

/-- Claim C4: (handler half) a work-log fragment, delivered for the turn's
session, appends its text delta to the step's accumulator, lets a
truthy fragment status overwrite the stored one (`wlStatusUpdate`), cancels
the flush timer handle previously registered for the step and registers a
fresh uncancelled one firing exactly 3 seconds after `now`, and emits nothing;
(flush half) an uncancelled timer handle that fires pops the step's
accumulator and timer-handle entry and emits exactly one finished work-log
event carrying the accumulated text and last-known status. -/
theorem c4_worklog_debounce (sid : String) :
    (∀ (st : ListenState) (now : ℚ) (mid meta : Option String) (d : DataDict),
      (handlerStep sid now S2C.SESSION_WORK_LOG_PART
          { payloadSessionId := some sid, messageId := mid,
            data := PyData.dict d, metadata := meta } st)
        = { st with
              wlBuffers := updateA (d.step_id.getD "unknown")
                { text := ((st.wlBuffers.lookup (d.step_id.getD "unknown")).getD
                    { text := "", status := none }).text ++ d.text_delta.getD "",
                  status := wlStatusUpdate
                    ((st.wlBuffers.lookup (d.step_id.getD "unknown")).getD
                      { text := "", status := none }).status d.status }
                st.wlBuffers,
              timers := (match st.wlTimers.lookup (d.step_id.getD "unknown") with
                  | some tid => cancelTimer st.timers tid
                  | none => st.timers) ++
                [{ tid := st.nextTid, fireAt := now + 3,
                   stepId := d.step_id.getD "unknown", cancelled := false }],
              wlTimers := updateA (d.step_id.getD "unknown") st.nextTid
                (match st.wlTimers.lookup (d.step_id.getD "unknown") with
                  | some _ => eraseA (d.step_id.getD "unknown") st.wlTimers
                  | none => st.wlTimers),
              nextTid := st.nextTid + 1 })
    ∧ (∀ (st : ListenState) (tid : Nat) (t : Timer) (b : WLBuf),
        st.timers.find? (fun tt => tt.tid == tid) = some t →
        t.cancelled = false →
        st.wlBuffers.lookup t.stepId = some b →
        fireFlush sid tid st
          = { st with
                wlBuffers := eraseA t.stepId st.wlBuffers,
                wlTimers := eraseA t.stepId st.wlTimers,
                queue := st.queue ++
                  [some { type := S2C.SESSION_WORK_LOG_PART, session_id := sid,
                          message_id := none,
                          data := EvtData.wlD t.stepId b.text b.status,
                          metadata := none }] }) := by
  constructor
  · intro st now mid meta d
    have hmain : handlerStep sid now S2C.SESSION_WORK_LOG_PART
        { payloadSessionId := some sid, messageId := mid,
          data := PyData.dict d, metadata := meta } st = tier3Step now d st := by
      simp [handlerStep, sessionFiltered_self]
    rw [hmain]
    cases hlt : st.wlTimers.lookup (d.step_id.getD "unknown") with
    | none => simp [tier3Step, hlt]
    | some tid => simp [tier3Step, hlt]
  · intro st tid t b hf hc hb
    simp [fireFlush, hf, hc, flush_wl, hb]

/-- Closed witness for `c4_worklog_debounce`: the flush half applied to a
state holding one buffered step with an uncancelled scheduled timer. -/
theorem c4_worklog_debounce_witness :
    (({ initState with
          wlBuffers := [("step7", { text := "probing", status := some "running" })],
          wlTimers := [("step7", 0)],
          timers := [{ tid := 0, fireAt := 3, stepId := "step7", cancelled := false }],
          nextTid := 1 } : ListenState).timers.find? (fun tt => tt.tid == 0)
       = some { tid := 0, fireAt := 3, stepId := "step7", cancelled := false })
    ∧ ({ tid := 0, fireAt := 3, stepId := "step7", cancelled := false } : Timer).cancelled = false
    ∧ (({ initState with
          wlBuffers := [("step7", { text := "probing", status := some "running" })],
          wlTimers := [("step7", 0)],
          timers := [{ tid := 0, fireAt := 3, stepId := "step7", cancelled := false }],
          nextTid := 1 } : ListenState).wlBuffers.lookup "step7"
        = some { text := "probing", status := some "running" })
    ∧ fireFlush "s1" 0
        { initState with
          wlBuffers := [("step7", { text := "probing", status := some "running" })],
          wlTimers := [("step7", 0)],
          timers := [{ tid := 0, fireAt := 3, stepId := "step7", cancelled := false }],
          nextTid := 1 }
      = { initState with
          wlBuffers := [], wlTimers := [],
          timers := [{ tid := 0, fireAt := 3, stepId := "step7", cancelled := false }],
          nextTid := 1,
          queue := [some { type := S2C.SESSION_WORK_LOG_PART, session_id := "s1",
                           message_id := none,
                           data := EvtData.wlD "step7" "probing" (some "running"),
                           metadata := none }] } := by
  refine ⟨by decide, rfl, by decide, ?_⟩
  have h := (c4_worklog_debounce "s1").2
    { initState with
      wlBuffers := [("step7", { text := "probing", status := some "running" })],
      wlTimers := [("step7", 0)],
      timers := [{ tid := 0, fireAt := 3, stepId := "step7", cancelled := false }],
      nextTid := 1 }
    0 { tid := 0, fireAt := 3, stepId := "step7", cancelled := false }
    { text := "probing", status := some "running" }
    (by decide) rfl (by decide)
  simpa using h

/-- Claim C5 counterexample: a request made with the empty-string session id.
The inbound envelope echoes the empty payload session id with a non-user
source role and no request id, so the claim's resolution condition (as the
spec words it) holds, yet `response_handler` does not resolve — the Python
guard `session_id and ...` treats the empty string as falsy. -/
theorem c5_empty_session_id_counterexample :
    specResolveCond "session:join" "rid-1" (some "") "session:join"
      { payloadSessionId := some "", payloadData := PyData.pnone,
        metaRequestId := none, sourceRole := some "agent" }
    ∧ response_matches "session:join" "rid-1" (some "") "session:join"
        { payloadSessionId := some "", payloadData := PyData.pnone,
          metaRequestId := none, sourceRole := some "agent" } = false :=
  ⟨⟨rfl, Or.inr ⟨"", rfl, rfl, by decide⟩⟩, by decide⟩

/-- Claim C5 as amended: whenever the pending request's session id is not the
empty string, `response_handler` resolves exactly under the spec's condition —
same event type, and either a matching correlation/request id or a matching
payload session id with a non-"user" source role. -/
theorem c5_match_characterization (et rid : String) (sidOpt : Option String)
    (evt : String) (raw : InEnvelope) (hsid : sidOpt ≠ some "") :
    response_matches et rid sidOpt evt raw = true ↔ specResolveCond et rid sidOpt evt raw := by
  by_cases he : evt = et
  · subst he
    cases sidOpt with
    | none => simp [response_matches, specResolveCond]
    | some s =>
      have hsb : (s == "") = false := by
        have : s ≠ "" := fun hs => hsid (by rw [hs])
        simpa using this
      simp [response_matches, specResolveCond, hsb]
  · have hb : (evt == et) = false := by simpa using he
    simp [response_matches, specResolveCond, he, hb]

/-- Closed witness for `c5_match_characterization` at a concrete non-empty
session id. -/
theorem c5_match_characterization_witness :
    (some "s9" ≠ (some "" : Option String))
    ∧ (response_matches "session:join" "r1" (some "s9") "session:join"
        { payloadSessionId := some "s9", payloadData := PyData.pnone,
          metaRequestId := none, sourceRole := some "assistant" } = true
      ↔ specResolveCond "session:join" "r1" (some "s9") "session:join"
          { payloadSessionId := some "s9", payloadData := PyData.pnone,
            metaRequestId := none, sourceRole := some "assistant" }) :=
  ⟨by decide,
   c5_match_characterization "session:join" "r1" (some "s9") "session:join"
     { payloadSessionId := some "s9", payloadData := PyData.pnone,
       metaRequestId := none, sourceRole := some "assistant" } (by decide)⟩

/-- Claim C6: if no inbound envelope delivered before the timeout satisfies
the match predicate, `emit_and_wait` fails exactly at the timeout (never
earlier) with a `Timeout` error whose message names the requested event type;
and the response handler is deregistered on every outcome. -/
theorem c6_timeout_behavior (et rid : String) (sidOpt : Option String) (timeout : ℚ)
    (inbound : List (ℚ × String × InEnvelope)) :
    ((∀ x ∈ inbound, x.1 < timeout →
        response_matches et rid sidOpt x.2.1 x.2.2 = false) →
      emit_and_wait_run et rid sidOpt timeout inbound
        = { result := Except.error ("Timeout waiting for " ++ et ++ " response"),
            finishTime := timeout, handlerRemoved := true }
      ∧ ∃ pre post : String,
          "Timeout waiting for " ++ et ++ " response" = pre ++ (et ++ post))
    ∧ (emit_and_wait_run et rid sidOpt timeout inbound).handlerRemoved = true := by
  constructor
  · intro hnone
    have hfind : inbound.find? (fun x =>
        decide (x.1 < timeout)
        && response_matches et rid sidOpt x.2.1 x.2.2) = none := by
      rw [List.find?_eq_none]
      intro x hx
      by_cases ht : x.1 < timeout
      · simp [ht, hnone x hx ht]
      · simp [ht]
    exact ⟨by simp [emit_and_wait_run, hfind],
      "Timeout waiting for ", " response", by rw [String.append_assoc]⟩
  · unfold emit_and_wait_run
    cases hfind : inbound.find? (fun x =>
        decide (x.1 < timeout)
        && response_matches et rid sidOpt x.2.1 x.2.2) <;> simp

/-- Closed witness for `c6_timeout_behavior`: a one-second wait against a
trace holding only a non-matching inbound event. -/
theorem c6_timeout_behavior_witness :
    (∀ x ∈ [((0:ℚ), "session:leave",
        ({ payloadSessionId := some "s1", payloadData := PyData.pnone,
           metaRequestId := none, sourceRole := none } : InEnvelope))],
       x.1 < (1:ℚ) → response_matches "session:join" "r1" (some "s1") x.2.1 x.2.2 = false)
    ∧ emit_and_wait_run "session:join" "r1" (some "s1") 1
        [((0:ℚ), "session:leave",
          ({ payloadSessionId := some "s1", payloadData := PyData.pnone,
             metaRequestId := none, sourceRole := none } : InEnvelope))]
      = { result := Except.error ("Timeout waiting for " ++ "session:join" ++ " response"),
          finishTime := 1, handlerRemoved := true }
    ∧ (emit_and_wait_run "session:join" "r1" (some "s1") 1
        [((0:ℚ), "session:leave",
          ({ payloadSessionId := some "s1", payloadData := PyData.pnone,
             metaRequestId := none, sourceRole := none } : InEnvelope))]).handlerRemoved
      = true := by
  refine ⟨by decide, ?_, ?_⟩
  · exact ((c6_timeout_behavior "session:join" "r1" (some "s1") 1 _).1 (by decide)).1
  · exact (c6_timeout_behavior "session:join" "r1" (some "s1") 1 _).2

lemma tier1Step_done (sid : String) (mid meta : Option String) (d : DataDict)
    (st : ListenState) :
    tier1Step sid mid meta d { st with done := true }
      = { tier1Step sid mid meta d st with done := true } := by
  unfold tier1Step
  rcases hr : collect st.textParts (midKey mid) (d.content.getD "") (d.final.getD false)
    with ⟨m, parts⟩
  cases m <;> simp [hr]

lemma tier3Step_done (now : ℚ) (d : DataDict) (st : ListenState) :
    tier3Step now d { st with done := true }
      = { tier3Step now d st with done := true } := by
  unfold tier3Step
  cases hlt : st.wlTimers.lookup (d.step_id.getD "unknown") <;> simp [hlt]

lemma passStep_done (sid evt : String) (mid meta : Option String) (data : PyData)
    (st : ListenState) :
    passStep sid evt mid meta data { st with done := true }
      = { passStep sid evt mid meta data st with done := true } := by
  unfold passStep
  cases data with
  | dict d =>
    by_cases h1 : evt ∈ SUBSTANTIVE_EVENTS <;>
      by_cases h2 : (evt == S2C.SESSION_INPUT_STATE) = true <;>
        by_cases h3 : (evt == S2C.SESSION_STATE) = true <;>
          by_cases h4 : (d.content == some "waiting_input") = true <;>
            by_cases h5 : st.receivedAgentResponse = true <;>
              by_cases h6 : d.content.getD "" ∈ TERMINAL_STATES <;>
                simp [h1, h2, h3, h4, h5, h6]
  | pnone =>
    by_cases h1 : evt ∈ SUBSTANTIVE_EVENTS <;>
      by_cases h2 : (evt == S2C.SESSION_INPUT_STATE) = true <;>
        by_cases h3 : (evt == S2C.SESSION_STATE) = true <;>
          simp [h1, h2, h3]
  | other tag =>
    by_cases h1 : evt ∈ SUBSTANTIVE_EVENTS <;>
      by_cases h2 : (evt == S2C.SESSION_INPUT_STATE) = true <;>
        by_cases h3 : (evt == S2C.SESSION_STATE) = true <;>
          simp [h1, h2, h3]

lemma handlerStep_done (sid : String) (now : ℚ) (evt : String) (raw : RawEnvelope)
    (st : ListenState) :
    handlerStep sid now evt raw { st with done := true }
      = { handlerStep sid now evt raw st with done := true } := by
  unfold handlerStep
  by_cases hf : sessionFiltered sid raw.payloadSessionId = true
  · simp [hf]
  · by_cases h1 : (evt == S2C.SESSION_TEXT_PART) = true
    · cases raw.data <;> simp [hf, h1, tier1Step_done]
    · by_cases h2 : (evt == S2C.SESSION_WORK_LOG_PART) = true
      · cases raw.data <;> simp [hf, h1, h2, tier3Step_done]
      · simp [hf, h1, h2, passStep_done]

lemma drainLoop_eq_filterMap (q : List (Option ChatEvent)) :
    drainLoop q = q.filterMap id := by
  induction q with
  | nil => rfl
  | cons o rest ih => cases o <;> simp [drainLoop, ih]

/-- Claim C8 counterexample: a terminal session-state event (which sets `done`
and enqueues the sentinel) followed by a further inbound reward event. The
handler — which has no `done` guard — still enqueues the reward after the
sentinel, and the post-loop drain yields it to the caller, so the turn neither
stops accepting events at the sentinel nor withholds events that arrived after
it. -/
theorem c8_post_sentinel_event_yielded :
    (runHandler "s1"
      [((0:ℚ), S2C.SESSION_STATE,
        { payloadSessionId := some "s1", messageId := none,
          data := PyData.dict { content := some "task_finished" }, metadata := none }),
       ((0:ℚ), S2C.SESSION_REWARD,
        { payloadSessionId := some "s1", messageId := none,
          data := PyData.pnone, metadata := none })] initState).done = true
    ∧ (runHandler "s1"
      [((0:ℚ), S2C.SESSION_STATE,
        { payloadSessionId := some "s1", messageId := none,
          data := PyData.dict { content := some "task_finished" }, metadata := none }),
       ((0:ℚ), S2C.SESSION_REWARD,
        { payloadSessionId := some "s1", messageId := none,
          data := PyData.pnone, metadata := none })] initState).queue
      = [some { type := S2C.SESSION_STATE, session_id := "s1", message_id := none,
                data := EvtData.raw (PyData.dict { content := some "task_finished" }),
                metadata := none },
         none,
         some { type := S2C.SESSION_REWARD, session_id := "s1", message_id := none,
                data := EvtData.raw PyData.pnone, metadata := none }]
    ∧ drainLoop (runHandler "s1"
      [((0:ℚ), S2C.SESSION_STATE,
        { payloadSessionId := some "s1", messageId := none,
          data := PyData.dict { content := some "task_finished" }, metadata := none }),
       ((0:ℚ), S2C.SESSION_REWARD,
        { payloadSessionId := some "s1", messageId := none,
          data := PyData.pnone, metadata := none })] initState).queue
      = [{ type := S2C.SESSION_STATE, session_id := "s1", message_id := none,
           data := EvtData.raw (PyData.dict { content := some "task_finished" }),
           metadata := none },
         { type := S2C.SESSION_REWARD, session_id := "s1", message_id := none,
           data := EvtData.raw PyData.pnone, metadata := none }] := by
  refine ⟨by decide, by decide, by decide⟩

/-- Claim C8 as amended: on transition to the terminated state the sentinel is
enqueued, but the handler keeps processing events exactly as before (`done` is
never read by it — the subscription is only removed when the generator
closes), and the drain yields every non-sentinel queue entry, in order —
whether enqueued before or after the sentinel. -/
theorem c8_sentinel_drain (sid : String) (now : ℚ) (evt : String) (raw : RawEnvelope)
    (st : ListenState) :
    handlerStep sid now evt raw { st with done := true }
      = { handlerStep sid now evt raw st with done := true }
    ∧ drainLoop st.queue = st.queue.filterMap id :=
  ⟨handlerStep_done sid now evt raw st, drainLoop_eq_filterMap st.queue⟩

lemma cancelAll_cancelAll (ts : List Timer) (tids : List Nat) :
    cancelAll (cancelAll ts tids) tids = cancelAll ts tids := by
  unfold cancelAll
  rw [List.map_map]
  apply List.map_congr_left
  intro t _
  by_cases hc : t.tid ∈ tids <;> simp [hc]

/-- Claim C9: the turn's `finally` cleanup cancels every timer handle held in
`wl_timers` and removes the handler subscription; running the cleanup a second
time on the resulting state changes nothing — already-cancelled timers stay
as they are (cancelled at most once) and removing the absent handler is a
no-op. -/
theorem c9_close_idempotent (st : ListenState) (hs : List Nat) (h : Nat)
    (hcount : hs.count h ≤ 1) :
    (∀ t ∈ (closeTurn st hs h).1.timers,
        t.tid ∈ st.wlTimers.map Prod.snd → t.cancelled = true)
    ∧ h ∉ (closeTurn st hs h).2
    ∧ closeTurn (closeTurn st hs h).1 (closeTurn st hs h).2 h = closeTurn st hs h := by
  have hnotmem : h ∉ hs.erase h := by
    intro hmem
    have hpos : 0 < (hs.erase h).count h := List.count_pos_iff.mpr hmem
    have hcnt : (hs.erase h).count h = hs.count h - 1 := List.count_erase_self h hs
    omega
  refine ⟨?_, hnotmem, ?_⟩
  · intro t ht htid
    simp only [closeTurn, cancelAll, List.mem_map] at ht
    obtain ⟨t0, ht0, heq⟩ := ht
    by_cases hc : t0.tid ∈ st.wlTimers.map Prod.snd
    · rw [if_pos (List.elem_eq_true_of_mem hc)] at heq
      rw [← heq]
    · rw [if_neg (fun hcb => hc (by simpa using hcb))] at heq
      subst heq
      exact absurd htid hc
  · simp only [closeTurn]
    rw [cancelAll_cancelAll, List.erase_of_not_mem hnotmem]

/-- Closed witness for `c9_close_idempotent` at a concrete state with one
pending work-log timer and a single registered handler. -/
theorem c9_close_idempotent_witness :
    (([7] : List Nat).count 7 ≤ 1)
    ∧ ((∀ t ∈ (closeTurn
          { initState with
            wlTimers := [("s", 0)],
            timers := [{ tid := 0, fireAt := 3, stepId := "s", cancelled := false }] }
          [7] 7).1.timers,
        t.tid ∈ ({ initState with
            wlTimers := [("s", 0)],
            timers := [{ tid := 0, fireAt := 3, stepId := "s", cancelled := false }] }
            : ListenState).wlTimers.map Prod.snd → t.cancelled = true)
      ∧ 7 ∉ (closeTurn
          { initState with
            wlTimers := [("s", 0)],
            timers := [{ tid := 0, fireAt := 3, stepId := "s", cancelled := false }] }
          [7] 7).2
      ∧ closeTurn
          (closeTurn
            { initState with
              wlTimers := [("s", 0)],
              timers := [{ tid := 0, fireAt := 3, stepId := "s", cancelled := false }] }
            [7] 7).1
          (closeTurn
            { initState with
              wlTimers := [("s", 0)],
              timers := [{ tid := 0, fireAt := 3, stepId := "s", cancelled := false }] }
            [7] 7).2 7
        = closeTurn
            { initState with
              wlTimers := [("s", 0)],
              timers := [{ tid := 0, fireAt := 3, stepId := "s", cancelled := false }] }
            [7] 7) :=
  ⟨by decide,
   c9_close_idempotent
     { initState with
       wlTimers := [("s", 0)],
       timers := [{ tid := 0, fireAt := 3, stepId := "s", cancelled := false }] }
     [7] 7 (by decide)⟩

end PineSpec
